import Mathlib

/-!
Shallow embedding of the CozoDB Memory TUI (`src/src/tui.py`).

The embedded core is the triad the specification calls out: the command
descriptor builder (the handler methods that turn form-field values into CLI
argument lists), the external process invoker (`_run_cli_command`, modelled as
a function from an invocation outcome to the returned result dictionary), and
the result normalizer / renderer (`_update_result`).

Python dictionaries are modelled as association lists `List (String × Json)`;
JSON-parsing (`json.loads`) and pretty-printing (`json.dumps(_, indent=2)`)
are external library calls and are passed in as function parameters.
-/

namespace CozoTui

mutual
/-- A JSON-like value, the payload type flowing through the TUI's result
dictionaries. Mutual with its own list types so that decidable equality can
be derived. -/
inductive Json where
  | null
  | bool (b : Bool)
  | num (n : Int)
  | str (s : String)
  | arr (elems : JsonList)
  | obj (fields : JsonFields)
deriving Repr, DecidableEq

inductive JsonList where
  | nil
  | cons (hd : Json) (tl : JsonList)
deriving Repr, DecidableEq

inductive JsonFields where
  | nil
  | cons (key : String) (val : Json) (tl : JsonFields)
deriving Repr, DecidableEq
end

/-- Build a `Json.obj` field list from an association list. -/
def JsonFields.ofList : List (String × Json) → JsonFields
  | [] => .nil
  | (k, v) :: rest => .cons k v (ofList rest)

/-- Emptiness test on a `Json.obj` field list. -/
def JsonFields.isEmpty : JsonFields → Bool
  | .nil => true
  | .cons _ _ _ => false

/-- Emptiness test on a `Json.arr` element list. -/
def JsonList.isEmpty : JsonList → Bool
  | .nil => true
  | .cons _ _ => false

/-- A Python dictionary with string keys, as used for the result values of
`_run_cli_command` and the argument of `_update_result`. -/
abbrev Dict := List (String × Json)

/-- Key lookup in a dictionary (`data[k]` / `k in data`). The dictionary
literals in the source have pairwise distinct keys, so first-match lookup
agrees with Python semantics. -/
def dictLookup (k : String) : Dict → Option Json
  | [] => none
  | (k', v) :: rest => if k' = k then some v else dictLookup k rest

/-- Python truthiness of a JSON-like value, used for `data["success"]`
appearing in a boolean context. -/
def truthy : Json → Bool
  | .null => false
  | .bool b => b
  | .num n => n != 0
  | .str s => s != ""
  | .arr elems => !elems.isEmpty
  | .obj fields => !fields.isEmpty

/-- The dictionary literal `{"output": result.stdout}` (tui.py line 155). -/
def outputObj (s : String) : Json := .obj (.cons "output" (.str s) .nil)

/-- `k in d and d[k]` — key present with a truthy value. -/
def truthyKey (k : String) (d : Dict) : Bool :=
  match dictLookup k d with
  | some v => truthy v
  | none => false

/-- Outcome of one `subprocess.run` call: normal completion with exit status
and captured streams, `subprocess.TimeoutExpired` (which may carry partial
captured output, ignored by the handler), or any other exception (executable
missing, permission denied, ...) carrying its message `str(e)`. -/
inductive Outcome where
  | completed (returncode : Int) (stdout : String) (stderr : String)
  | timedOut (partialStdout : String) (partialStderr : String)
  | spawnFailed (msg : String)
deriving Repr, DecidableEq

/-- The argument vector built by `_run_cli_command` (tui.py lines 129-132):
`cmd = ["node", self.cli_path] + list(args)`, then `["-f", "json"]` is
appended when `use_json_format` is true. -/
def buildCmd (cliPath : String) (args : List String) (useJsonFormat : Bool) :
    List String :=
  ["node", cliPath] ++ args ++ (if useJsonFormat then ["-f", "json"] else [])

/-- The `timeout=30` argument of the `subprocess.run` call (tui.py line 138). -/
def subprocessTimeout : Nat := 30

/-- The `capture_output=True` argument of `subprocess.run` (tui.py line 136). -/
def subprocessCaptureOutput : Bool := true

/-- The `text=True` argument of `subprocess.run` (tui.py line 137): streams
are decoded to text. -/
def subprocessText : Bool := true

/-- Result classification of `_run_cli_command` (tui.py lines 141-160), as a
function of the invocation outcome. `parse` stands for `json.loads`,
returning either the parsed value or the exception message `str(e)`. -/
def runCliCommand (parse : String → Except String Json)
    (useJsonFormat : Bool) (outcome : Outcome) : Dict :=
  match outcome with
  | .completed returncode stdout stderr =>
    if returncode != 0 then
      [("error", .str (if stderr = "" then "Command failed" else stderr))]
    else if useJsonFormat then
      match parse stdout with
      | .ok parsed => [("success", .bool true), ("data", parsed)]
      | .error e =>
        [("error", .str ("Failed to parse JSON: " ++ e ++ "\nOutput: "
            ++ stdout.take 200))]
    else
      [("success", .bool true), ("data", outputObj stdout)]
  | .timedOut _ _ => [("error", .str "Command timed out")]
  | .spawnFailed msg => [("error", .str msg)]

/-- The f-string interpolation of `data['error']` (tui.py line 170). Every
`"error"` value built in this file is a `.str` (see the shape theorem for
`runCliCommand`), so the remaining branches are unreachable at call sites. -/
def errStr : Json → String
  | .str s => s
  | _ => ""

/-- Rendering of a result dictionary by `_update_result` (tui.py lines
162-184). `dumps` stands for `json.dumps(_, indent=2)`. Python raises
`KeyError` when `"data"` is absent on the success path; that path is
unreachable for the dictionaries produced in this file, modelled by
defaulting to `.null`. -/
def updateResult (dumps : Json → String) (data : Dict) : String :=
  if (dictLookup "error" data).isSome then
    "ERROR:\n" ++ errStr ((dictLookup "error" data).getD .null)
  else if truthyKey "success" data then
    let formatted := dumps ((dictLookup "data" data).getD .null)
    let formatted :=
      if formatted.length > 5000 then
        formatted.take 5000 ++ "\n... (truncated)"
      else formatted
    "SUCCESS:\n" ++ formatted
  else
    dumps (.obj (JsonFields.ofList data))

/-- One step of a form-submit handler: either the handler rejects the input
before any descriptor exists (`self._update_result({"error": ...}); return`),
or it builds the argument list and invokes `_run_cli_command` with it. -/
inductive HandlerStep where
  | reject (result : Dict)
  | invoke (args : List String) (useJsonFormat : Bool)
deriving Repr, DecidableEq

/-- Number of `_run_cli_command` invocations a handler step performs. -/
def invocationCount : HandlerStep → Nat
  | .reject _ => 0
  | .invoke _ _ => 1

/-- The command descriptor (argument list and structured-output flag) a
handler step builds, if any. -/
def builtDescriptor : HandlerStep → Option (List String × Bool)
  | .reject _ => none
  | .invoke args useJsonFormat => some (args, useJsonFormat)

/-- `handle_create_entity` (tui.py lines 405-420): arguments are the three
input-field values. -/
def handle_create_entity (name entityType metadata : String) : HandlerStep :=
  if name = "" ∨ entityType = "" then
    .reject [("error", .str "Name and type are required")]
  else
    .invoke (["entity", "create", "-n", name, "-t", entityType]
      ++ (if metadata ≠ "" then ["-m", metadata] else [])) true

/-- `handle_search` (tui.py lines 422-436). -/
def handle_search (query limit : String) : HandlerStep :=
  if query = "" then
    .reject [("error", .str "Search query is required")]
  else
    .invoke (["search", "query", "-q", query]
      ++ (if limit ≠ "" then ["-l", limit] else [])) true

/-- `handle_agentic_search` (tui.py lines 438-453). -/
def handle_agentic_search (query limit : String) : HandlerStep :=
  if query = "" then
    .reject [("error", .str "Search query is required")]
  else
    .invoke (["search", "agentic", "-q", query]
      ++ (if limit ≠ "" then ["-l", limit] else [])) true

/-- `handle_import` (tui.py lines 455-467): `format_type or "cozo"` defaults
the format, and the invocation passes `use_json_format=False`. -/
def handle_import (filePath formatType : String) : HandlerStep :=
  if filePath = "" then
    .reject [("error", .str "File path is required")]
  else
    .invoke ["import", "file", "-i", filePath, "-f",
      if formatType = "" then "cozo" else formatType] false

/-- `handle_graph_explore` (tui.py lines 500-514). -/
def handle_graph_explore (startId hops : String) : HandlerStep :=
  if startId = "" then
    .reject [("error", .str "Start entity ID is required")]
  else
    .invoke (["graph", "explore", "-s", startId]
      ++ (if hops ≠ "" then ["-h", hops] else [])) true

/-- `handle_sys_reflect` (tui.py lines 535-545): no required field. -/
def handle_sys_reflect (entityId : String) : HandlerStep :=
  .invoke (["system", "reflect"]
    ++ (if entityId ≠ "" then ["-i", entityId] else [])) true

/-- `handle_profile_update` (tui.py lines 632-652): flags for the non-empty
fields are appended first; if the list is still just `["profile", "update"]`
(length 2) the submission is rejected. -/
def handle_profile_update (name profileType metadata : String) : HandlerStep :=
  let args := ["profile", "update"]
    ++ (if name ≠ "" then ["-n", name] else [])
    ++ (if profileType ≠ "" then ["-t", profileType] else [])
    ++ (if metadata ≠ "" then ["-m", metadata] else [])
  if args.length = 2 then
    .reject [("error", .str "At least one field must be provided")]
  else
    .invoke args true

/-- `handle_profile_add_pref` (tui.py lines 654-669). -/
def handle_profile_add_pref (text metadata : String) : HandlerStep :=
  if text = "" then
    .reject [("error", .str "Preference text is required")]
  else
    .invoke (["profile", "add-preference", "-t", text]
      ++ (if metadata ≠ "" then ["-m", metadata] else [])) true

/-- The argument list built by `handle_export` (tui.py lines 547-557) for a
given format button and output-file field value; the output path defaults to
`export.<format>` when the field is empty (`file_input.value or ...`). -/
def handle_export_args (formatType fileInput : String) : List String :=
  let filePath := if fileInput = "" then "export." ++ formatType else fileInput
  if formatType = "json" then
    ["export", "json", "-o", filePath, "--include-metadata",
      "--include-relationships", "--include-observations"]
  else if formatType = "markdown" then
    ["export", "markdown", "-o", filePath]
  else
    ["export", "obsidian", "-o", filePath]

/-- Run a handler step against an invocation outcome: a rejected step never
reaches `_run_cli_command`, an invoking step returns its classified result. -/
def runStep (parse : String → Except String Json) (step : HandlerStep)
    (outcome : Outcome) : Dict :=
  match step with
  | .reject result => result
  | .invoke _ useJsonFormat => runCliCommand parse useJsonFormat outcome

/-- The full `handle_export` pipeline (tui.py lines 547-563): invoke with
`use_json_format=False`, then replace a truthy-success result by the
synthesized `{"success": True, "data": {"message": "Exported to <path>"}}`. -/
def handle_export_full (parse : String → Except String Json)
    (formatType fileInput : String) (outcome : Outcome) : Dict :=
  let filePath := if fileInput = "" then "export." ++ formatType else fileInput
  let result := runCliCommand parse false outcome
  if truthyKey "success" result then
    [("success", .bool true),
      ("data", .obj (.cons "message" (.str ("Exported to " ++ filePath)) .nil))]
  else result

/-- The full `handle_import` pipeline (tui.py lines 455-467): the classified
result is passed to `_update_result` unchanged — there is no post-processing
step. -/
def handle_import_full (parse : String → Except String Json)
    (filePath formatType : String) (outcome : Outcome) : Dict :=
  runStep parse (handle_import filePath formatType) outcome

/-- The Form views of the TUI, i.e. the navigation targets that mount input
fields. -/
inductive FormView where
  | createEntity
  | search
  | importMenu
  | graphExplore
  | reflect
  | profileUpdate
  | addPreference
  | exportMenu
deriving Repr, DecidableEq

/-- The ids of the `Input` widgets each form-view navigation mounts
(`action_create_entity` lines 209-225, `action_search` lines 227-241,
`action_import_menu` lines 275-289, `handle_graph_explore_form` lines
487-498, `action_sys_reflect_form` lines 522-533, `action_profile_update_form`
lines 600-615, `action_profile_add_pref_form` lines 617-630,
`action_export_menu` lines 259-273). -/
def formFields : FormView → List String
  | .createEntity => ["input-name", "input-type", "input-metadata"]
  | .search => ["input-search-query", "input-search-limit"]
  | .importMenu => ["input-import-file", "input-import-format"]
  | .graphExplore => ["input-explore-start", "input-explore-hops"]
  | .reflect => ["input-reflect-id"]
  | .profileUpdate =>
      ["input-profile-name", "input-profile-type", "input-profile-metadata"]
  | .addPreference => ["input-pref-text", "input-pref-metadata"]
  | .exportMenu => ["input-export-file"]

/-- Session state relevant to navigation: the input-field values currently
mounted in the result container, and a count of backend invocations made so
far. -/
structure SessionState where
  fieldValues : List (String × String)
  invocations : Nat
deriving Repr, DecidableEq

/-- Navigating to a Form view: the container's children are removed and fresh
`Input` widgets are mounted, each with no initial value (empty string). None
of these navigation actions calls `_run_cli_command`. -/
def navigateForm (v : FormView) (s : SessionState) : SessionState :=
  { s with fieldValues := (formFields v).map (fun k => (k, "")) }

/-- Character-list match at the head (helper for substring search). -/
def leadMatch : List Char → List Char → Bool
  | [], _ => true
  | _ :: _, [] => false
  | p :: ps, c :: cs => p = c && leadMatch ps cs

/-- Contiguous-substring search on character lists. -/
def subMatch (p : List Char) : List Char → Bool
  | [] => leadMatch p []
  | c :: cs => leadMatch p (c :: cs) || subMatch p cs

/-- `msg` mentions `field` when the field name occurs in the message,
case-insensitively. -/
def mentionsField (msg field : String) : Bool :=
  subMatch (field.toList.map Char.toLower) (msg.toList.map Char.toLower)

/-- A concrete stand-in for `json.loads`, used only to instantiate witness
statements: parses the single literal `"{}"` as the empty object and rejects
everything else. -/
def toyParse (s : String) : Except String Json :=
  if s = "{}" then .ok (.obj .nil) else .error "Expecting value"

/-- A concrete stand-in for `json.dumps(_, indent=2)`, used only to
instantiate witness statements: a 5001-character string for every value. -/
def longDumps (_ : Json) : String := String.mk (List.replicate 5001 'a')

/-- A concrete short pretty-printer for witness statements. -/
def shortDumps (_ : Json) : String := "short"

end CozoTui

open CozoTui

/-- Claim C1: for every action with a required field list (create-entity,
search, agentic-search, import, graph-explore, add-preference), submitting
while any required field's stored value is empty produces a Failure result
whose message mentions that field, and `_run_cli_command` is never invoked
and no command descriptor is built. -/
theorem C1_required_field_validation :
    (∀ name entityType metadata : String, name = "" ∨ entityType = "" →
      handle_create_entity name entityType metadata
          = .reject [("error", .str "Name and type are required")]
        ∧ mentionsField "Name and type are required" "name" = true
        ∧ mentionsField "Name and type are required" "type" = true
        ∧ invocationCount (handle_create_entity name entityType metadata) = 0
        ∧ builtDescriptor (handle_create_entity name entityType metadata) = none)
  ∧ (∀ query limit : String, query = "" →
      handle_search query limit
          = .reject [("error", .str "Search query is required")]
        ∧ mentionsField "Search query is required" "query" = true
        ∧ invocationCount (handle_search query limit) = 0
        ∧ builtDescriptor (handle_search query limit) = none)
  ∧ (∀ query limit : String, query = "" →
      handle_agentic_search query limit
          = .reject [("error", .str "Search query is required")]
        ∧ mentionsField "Search query is required" "query" = true
        ∧ invocationCount (handle_agentic_search query limit) = 0
        ∧ builtDescriptor (handle_agentic_search query limit) = none)
  ∧ (∀ filePath formatType : String, filePath = "" →
      handle_import filePath formatType
          = .reject [("error", .str "File path is required")]
        ∧ mentionsField "File path is required" "file path" = true
        ∧ invocationCount (handle_import filePath formatType) = 0
        ∧ builtDescriptor (handle_import filePath formatType) = none)
  ∧ (∀ startId hops : String, startId = "" →
      handle_graph_explore startId hops
          = .reject [("error", .str "Start entity ID is required")]
        ∧ mentionsField "Start entity ID is required" "start entity id" = true
        ∧ invocationCount (handle_graph_explore startId hops) = 0
        ∧ builtDescriptor (handle_graph_explore startId hops) = none)
  ∧ (∀ text metadata : String, text = "" →
      handle_profile_add_pref text metadata
          = .reject [("error", .str "Preference text is required")]
        ∧ mentionsField "Preference text is required" "preference text" = true
        ∧ invocationCount (handle_profile_add_pref text metadata) = 0
        ∧ builtDescriptor (handle_profile_add_pref text metadata) = none) := by
  refine ⟨?_, ?_, ?_, ?_, ?_, ?_⟩
  · intro name entityType metadata h
    unfold handle_create_entity
    rw [if_pos h]
    exact ⟨rfl, by decide, by decide, rfl, rfl⟩
  · rintro query limit rfl
    exact ⟨rfl, by decide, rfl, rfl⟩
  · rintro query limit rfl
    exact ⟨rfl, by decide, rfl, rfl⟩
  · rintro filePath formatType rfl
    exact ⟨rfl, by decide, rfl, rfl⟩
  · rintro startId hops rfl
    exact ⟨rfl, by decide, rfl, rfl⟩
  · rintro text metadata rfl
    exact ⟨rfl, by decide, rfl, rfl⟩

/-- Witness for C1 at concrete inputs: each handler, given an empty required
field, rejects with the stated message and zero invocations. -/
theorem C1_required_field_validation_witness :
    (handle_create_entity "" "Person" ""
        = .reject [("error", Json.str "Name and type are required")])
  ∧ invocationCount (handle_search "" "10") = 0
  ∧ invocationCount (handle_agentic_search "" "10") = 0
  ∧ builtDescriptor (handle_import "" "cozo") = none
  ∧ builtDescriptor (handle_graph_explore "" "3") = none
  ∧ (handle_profile_add_pref "" ""
        = .reject [("error", Json.str "Preference text is required")]) :=
  ⟨((C1_required_field_validation.1) "" "Person" "" (Or.inl rfl)).1,
   ((C1_required_field_validation.2.1) "" "10" rfl).2.2.1,
   ((C1_required_field_validation.2.2.1) "" "10" rfl).2.2.1,
   ((C1_required_field_validation.2.2.2.1) "" "cozo" rfl).2.2.2,
   ((C1_required_field_validation.2.2.2.2.1) "" "3" rfl).2.2.2,
   ((C1_required_field_validation.2.2.2.2.2) "" "" rfl).1⟩

/-- C2 counterexample: submitting profile-update with all three fields empty
does not yield the message `"at least one field must be provided"` — the
code's message is capitalized differently. -/
theorem C2_profile_update_counterexample :
    handle_profile_update "" "" ""
      ≠ .reject [("error", Json.str "at least one field must be provided")] := by
  decide

/-- Claim C2 (amended): submitting profile-update with all three optional
fields empty yields Failure("At least one field must be provided") and the
backend is not invoked; if at least one of the three is non-empty, the
command is built with only the non-empty fields mapped to flags -n, -t, -m
(in that order) and invoked with structured output. -/
theorem C2_profile_update_amended (name profileType metadata : String) :
    (name = "" ∧ profileType = "" ∧ metadata = "" →
      handle_profile_update name profileType metadata
          = .reject [("error", .str "At least one field must be provided")]
        ∧ invocationCount (handle_profile_update name profileType metadata) = 0)
  ∧ (name ≠ "" ∨ profileType ≠ "" ∨ metadata ≠ "" →
      handle_profile_update name profileType metadata
        = .invoke (["profile", "update"]
            ++ (if name ≠ "" then ["-n", name] else [])
            ++ (if profileType ≠ "" then ["-t", profileType] else [])
            ++ (if metadata ≠ "" then ["-m", metadata] else [])) true) := by
  constructor
  · rintro ⟨rfl, rfl, rfl⟩
    exact ⟨rfl, rfl⟩
  · intro h
    by_cases h1 : name = "" <;> by_cases h2 : profileType = "" <;>
      by_cases h3 : metadata = "" <;> simp_all [handle_profile_update]

/-- Witness for C2 at concrete inputs. -/
theorem C2_profile_update_amended_witness :
    (handle_profile_update "" "" ""
        = .reject [("error", Json.str "At least one field must be provided")])
  ∧ (handle_profile_update "Dev" "" ""
        = .invoke (["profile", "update"]
            ++ (if "Dev" ≠ "" then ["-n", "Dev"] else [])
            ++ (if "" ≠ "" then ["-t", ""] else [])
            ++ (if "" ≠ "" then ["-m", ""] else [])) true) :=
  ⟨((C2_profile_update_amended "" "" "").1 ⟨rfl, rfl, rfl⟩).1,
   (C2_profile_update_amended "Dev" "" "").2 (Or.inl (by decide))⟩

/-- Claim C3: the result normalizer classifies, in order: a timed-out outcome
yields Failure("Command timed out") regardless of any captured partial
output; a spawn-failed outcome yields Failure with the underlying message; a
completed outcome with non-zero exit status yields Failure whose message is
the stderr text, or "Command failed" when stderr is empty. -/
theorem C3_outcome_classification
    (parse : String → Except String Json) (useJsonFormat : Bool) :
    (∀ partialStdout partialStderr : String,
      runCliCommand parse useJsonFormat (.timedOut partialStdout partialStderr)
        = [("error", .str "Command timed out")])
  ∧ (∀ msg : String,
      runCliCommand parse useJsonFormat (.spawnFailed msg)
        = [("error", .str msg)])
  ∧ (∀ (returncode : Int) (stdout stderr : String), returncode ≠ 0 →
      runCliCommand parse useJsonFormat (.completed returncode stdout stderr)
        = [("error",
            .str (if stderr = "" then "Command failed" else stderr))]) := by
  refine ⟨fun _ _ => rfl, fun _ => rfl, ?_⟩
  intro returncode stdout stderr h
  simp [runCliCommand, h]

/-- Witness for C3 at concrete inputs. -/
theorem C3_outcome_classification_witness :
    runCliCommand toyParse true (.timedOut "partial out" "")
        = [("error", Json.str "Command timed out")]
  ∧ runCliCommand toyParse true (.spawnFailed "No such file or directory")
        = [("error", Json.str "No such file or directory")]
  ∧ runCliCommand toyParse true (.completed 1 "" "")
        = [("error", Json.str (if "" = "" then "Command failed" else ""))]
  ∧ runCliCommand toyParse true (.completed 2 "" "oops")
        = [("error", Json.str (if "oops" = "" then "Command failed" else "oops"))] :=
  ⟨(C3_outcome_classification toyParse true).1 "partial out" "",
   (C3_outcome_classification toyParse true).2.1 "No such file or directory",
   (C3_outcome_classification toyParse true).2.2 1 "" "" (by decide),
   (C3_outcome_classification toyParse true).2.2 2 "" "oops" (by decide)⟩

/-- Claim C4: for a completed outcome with exit status zero, when structured
output was requested stdout is parsed as JSON — on success the result is
Success(parsed value), on parse failure the result is Failure with message
"Failed to parse JSON: <error>" followed by a newline and "Output: " plus the
first 200 characters of stdout; when structured output was not requested the
result is Success({output: raw stdout text}). -/
theorem C4_exit_zero_classification
    (parse : String → Except String Json) (stdout stderr : String) :
    (∀ v : Json, parse stdout = .ok v →
      runCliCommand parse true (.completed 0 stdout stderr)
        = [("success", .bool true), ("data", v)])
  ∧ (∀ e : String, parse stdout = .error e →
      runCliCommand parse true (.completed 0 stdout stderr)
        = [("error", .str ("Failed to parse JSON: " ++ e ++ "\nOutput: "
            ++ stdout.take 200))])
  ∧ runCliCommand parse false (.completed 0 stdout stderr)
      = [("success", .bool true), ("data", outputObj stdout)] := by
  refine ⟨?_, ?_, ?_⟩
  · intro v h
    simp [runCliCommand, h]
  · intro e h
    simp [runCliCommand, h]
  · simp [runCliCommand]

/-- Witness for C4 at concrete inputs, using the concrete parser `toyParse`. -/
theorem C4_exit_zero_classification_witness :
    (toyParse "{}" = Except.ok (Json.obj JsonFields.nil)
      ∧ runCliCommand toyParse true (.completed 0 "{}" "")
          = [("success", Json.bool true), ("data", Json.obj JsonFields.nil)])
  ∧ (toyParse "not json" = Except.error "Expecting value"
      ∧ runCliCommand toyParse true (.completed 0 "not json" "")
          = [("error", Json.str ("Failed to parse JSON: " ++ "Expecting value"
              ++ "\nOutput: " ++ ("not json").take 200))])
  ∧ runCliCommand toyParse false (.completed 0 "raw text" "")
      = [("success", Json.bool true), ("data", outputObj "raw text")] :=
  ⟨⟨rfl, (C4_exit_zero_classification toyParse "{}" "").1
      (Json.obj JsonFields.nil) rfl⟩,
   ⟨rfl, (C4_exit_zero_classification toyParse "not json" "").2.1
      "Expecting value" rfl⟩,
   (C4_exit_zero_classification toyParse "raw text" "").2.2⟩

/-- Claim C5: rendering a result: Failure(m) renders as "ERROR:" + newline +
m; Success(v) renders as "SUCCESS:" + newline + the pretty-printed value,
where a pretty-printed form longer than 5000 characters is cut to exactly its
first 5000 characters followed by a newline and "... (truncated)", and a form
of 5000 characters or fewer is rendered in full with no marker. -/
theorem C5_render_rule (dumps : Json → String) (m : String) (v : Json) :
    updateResult dumps [("error", .str m)] = "ERROR:\n" ++ m
  ∧ ((dumps v).length > 5000 →
      updateResult dumps [("success", .bool true), ("data", v)]
        = "SUCCESS:\n" ++ ((dumps v).take 5000 ++ "\n... (truncated)"))
  ∧ ((dumps v).length ≤ 5000 →
      updateResult dumps [("success", .bool true), ("data", v)]
        = "SUCCESS:\n" ++ dumps v) := by
  refine ⟨?_, ?_, ?_⟩
  · simp [updateResult, dictLookup, errStr]
  · intro h
    simp [updateResult, dictLookup, truthyKey, truthy, h]
  · intro h
    simp [updateResult, dictLookup, truthyKey, truthy, Nat.not_lt.mpr h]

/-- Witness for C5 at concrete inputs: a 5001-character pretty-printed form
is truncated, a short one is rendered in full. -/
theorem C5_render_rule_witness :
    ((longDumps Json.null).length > 5000
      ∧ updateResult longDumps [("success", Json.bool true), ("data", Json.null)]
          = "SUCCESS:\n" ++ ((longDumps Json.null).take 5000 ++ "\n... (truncated)"))
  ∧ ((shortDumps Json.null).length ≤ 5000
      ∧ updateResult shortDumps [("success", Json.bool true), ("data", Json.null)]
          = "SUCCESS:\n" ++ shortDumps Json.null)
  ∧ updateResult shortDumps [("error", Json.str "boom")] = "ERROR:\n" ++ "boom" :=
  by
  have hlen : (longDumps Json.null).length = 5001 :=
    List.length_replicate 5001 'a'
  exact ⟨⟨by omega, (C5_render_rule longDumps "" Json.null).2.1 (by omega)⟩,
    ⟨by decide, (C5_render_rule shortDumps "" Json.null).2.2 (by decide)⟩,
    (C5_render_rule shortDumps "boom" Json.null).1⟩

/-- C6 counterexample: a successful (exit 0, non-structured) import does not
get replaced by a synthesized message result — the raw stdout is echoed as
Success({output: ...}); only the export handler synthesizes a message. -/
theorem C6_import_counterexample :
    handle_import_full toyParse "data.json" ""
        (.completed 0 "Imported 5 entities\n" "")
      ≠ [("success", Json.bool true),
         ("data", Json.obj (.cons "message"
           (Json.str "Exported to data.json") .nil))]
  ∧ handle_import_full toyParse "data.json" ""
        (.completed 0 "Imported 5 entities\n" "")
      = [("success", Json.bool true),
         ("data", outputObj "Imported 5 entities\n")] := by
  constructor
  · decide
  · rfl

/-- Claim C6 (amended): for the export actions, when the invocation outcome
is completed with exit status zero (non-structured output), the controller
replaces the result with a synthesized Success({message: "Exported to
<path>"}) and never shows the raw stdout text; the import action performs no
such replacement and yields Success({output: raw stdout}). -/
theorem C6_export_synthesis_amended (parse : String → Except String Json)
    (formatType fileInput filePath formatType2 stdout stderr : String) :
    handle_export_full parse formatType fileInput (.completed 0 stdout stderr)
      = [("success", Json.bool true),
         ("data", Json.obj (.cons "message"
           (Json.str ("Exported to "
             ++ (if fileInput = "" then "export." ++ formatType else fileInput)))
           .nil))]
  ∧ (filePath ≠ "" →
      handle_import_full parse filePath formatType2 (.completed 0 stdout stderr)
        = [("success", Json.bool true), ("data", outputObj stdout)]) := by
  constructor
  · simp [handle_export_full, runCliCommand, truthyKey, dictLookup, truthy]
  · intro h
    simp [handle_import_full, handle_import, runStep, runCliCommand, h]

/-- Witness for C6 (amended) at concrete inputs. -/
theorem C6_export_synthesis_amended_witness :
    handle_export_full toyParse "json" "" (.completed 0 "wrote file\n" "")
      = [("success", Json.bool true),
         ("data", Json.obj (.cons "message"
           (Json.str ("Exported to "
             ++ (if "" = "" then "export." ++ "json" else ""))) .nil))]
  ∧ handle_import_full toyParse "backup.json" "cozo"
        (.completed 0 "done\n" "")
      = [("success", Json.bool true), ("data", outputObj "done\n")] :=
  ⟨(C6_export_synthesis_amended toyParse "json" "" "backup.json" "cozo"
      "wrote file\n" "").1,
   (C6_export_synthesis_amended toyParse "json" "" "backup.json" "cozo"
      "done\n" "").2 (by decide)⟩

/-- Claim C7: navigating to any Form view leaves every field of that form
mounted with an empty value, regardless of any values from a previous visit
(the reset is idempotent and independent of prior session state), and
navigation itself never invokes the backend. -/
theorem C7_navigation_resets_forms (v : FormView) (s : SessionState) :
    (navigateForm v s).fieldValues.map Prod.fst = formFields v
  ∧ (navigateForm v s).fieldValues.all (fun p => p.2 == "") = true
  ∧ navigateForm v (navigateForm v s) = navigateForm v s
  ∧ (navigateForm v s).invocations = s.invocations := by
  cases v <;> simp [navigateForm, formFields]

/-- Claim C8 counterexample: the backend is not executed as the resolved
executable path followed by the path segments — the argument vector starts
with the runtime name "node" before the resolved script path. -/
theorem C8_invocation_counterexample :
    buildCmd "/repo/dist/cli.js" ["system", "health"] true
      ≠ ["/repo/dist/cli.js", "system", "health", "-f", "json"] := by
  decide

/-- Claim C8 (amended): every backend invocation is executed as the runtime
"node" followed by the resolved script path, then the descriptor's path
segments and flag/value pairs in order, with "-f json" appended as the last
flag exactly when structured output is requested and never otherwise; the
invocation enforces a fixed timeout of 30 time units and captures stdout and
stderr as text. -/
theorem C8_invocation_amended (cliPath : String) (args : List String) :
    buildCmd cliPath args true = ["node", cliPath] ++ args ++ ["-f", "json"]
  ∧ buildCmd cliPath args false = ["node", cliPath] ++ args
  ∧ subprocessTimeout = 30
  ∧ subprocessCaptureOutput = true
  ∧ subprocessText = true := by
  refine ⟨rfl, ?_, rfl, rfl, rfl⟩
  simp [buildCmd]

/-- Claim C9: the invocation function is total and its result has exactly one
of two shapes — either a dictionary with the single key "error" mapped to a
message string (and no "success" key), or a dictionary with "success" mapped
to True together with a "data" key (and no "error" key). -/
theorem C9_result_shape (parse : String → Except String Json)
    (useJsonFormat : Bool) (outcome : Outcome) :
    (∃ m : String,
      runCliCommand parse useJsonFormat outcome = [("error", .str m)]
        ∧ dictLookup "success" (runCliCommand parse useJsonFormat outcome) = none)
  ∨ (∃ d : Json,
      runCliCommand parse useJsonFormat outcome
          = [("success", .bool true), ("data", d)]
        ∧ dictLookup "error" (runCliCommand parse useJsonFormat outcome) = none) := by
  cases outcome with
  | timedOut partialStdout partialStderr =>
    exact .inl ⟨"Command timed out", rfl, rfl⟩
  | spawnFailed msg =>
    exact .inl ⟨msg, rfl, rfl⟩
  | completed returncode stdout stderr =>
    by_cases h : returncode = 0
    · subst h
      cases useJsonFormat with
      | false =>
        exact .inr ⟨outputObj stdout, rfl, rfl⟩
      | true =>
        cases hp : parse stdout with
        | ok v =>
          exact .inr ⟨v, by simp [runCliCommand, hp],
            by simp [runCliCommand, hp, dictLookup]⟩
        | error e =>
          exact .inl ⟨"Failed to parse JSON: " ++ e ++ "\nOutput: "
              ++ stdout.take 200,
            by simp [runCliCommand, hp],
            by simp [runCliCommand, hp, dictLookup]⟩
    · exact .inl ⟨if stderr = "" then "Command failed" else stderr,
        by simp [runCliCommand, h],
        by simp [runCliCommand, h, dictLookup]⟩

/-- Claim C10: the export-json action always appends the three flags
--include-metadata, --include-relationships, --include-observations in that
order, while export-markdown and export-obsidian pass only the output-path
flag -o; all three variants default the output path to "export.<format>"
when the field is empty. -/
theorem C10_export_variants (fileInput : String) :
    handle_export_args "json" fileInput
      = ["export", "json", "-o",
          if fileInput = "" then "export.json" else fileInput,
          "--include-metadata", "--include-relationships",
          "--include-observations"]
  ∧ handle_export_args "markdown" fileInput
      = ["export", "markdown", "-o",
          if fileInput = "" then "export.markdown" else fileInput]
  ∧ handle_export_args "obsidian" fileInput
      = ["export", "obsidian", "-o",
          if fileInput = "" then "export.obsidian" else fileInput] := by
  by_cases h : fileInput = ""
  · subst h
    exact ⟨rfl, rfl, rfl⟩
  · refine ⟨?_, ?_, ?_⟩ <;> simp [handle_export_args, h]
